import Mathlib

/-!
# Verification of the Gmail-Labeler backend (`backend/app.js`)

Shallow embedding of the classification-and-labeling pipeline of
`backend/app.js`:

* `extractPlainText` (app.js lines 61-72): depth-first search for the first
  `text/plain` part carrying base64 body data;
* `classifyEmail`'s pure post-processing (lines 87-104): trim the model
  output and substitute the fallback label when it is not in the vocabulary;
* `getOrCreateLabel` (lines 106-122): case-insensitive label resolution with
  creation, conflict recovery by re-listing, and INBOX last resort;
* `processJobForEmail` (lines 124-168): the per-mailbox message loop with its
  label-id cache, duplicate guard and single surrounding try/catch;
* `runAll` (lines 170-175): the sequential multi-tenant orchestrator.

External calls (Gmail API, OpenAI, Supabase) are modelled by an environment
`Env` supplying the result of each call; each call either returns a value or
throws (`Res.err`).  Running the pipeline against an environment produces the
exact sequence of external calls made (`Call`), the per-message outcomes, and
whether the surrounding catch block fired.

JavaScript-specific behaviours are modelled explicitly: falsy checks on
possibly-undefined / empty-string label ids (`truthyS`), the `||` operator on
such values (`jsOr`), `Map` lookup (`jsMapGet`), and Node's forgiving base64
decoding (`b64decode`: non-alphabet characters are ignored, a leftover of one
sextet yields no byte).

A note on the label preload (app.js lines 128-132): the JavaScript binds
the `labels.list` response's `data` field — whose shape is `{labels: [...]}`,
as witnessed by `getOrCreateLabel` reading `data.labels` from the same call
at lines 109 and 118 (the predecessor revision spells the preload
`lblList.labels.filter(...)`) — and then calls `.filter`/`.map` on that
object.  An object has no `.filter`, so at run time every run that reaches
the preload throws `TypeError` there, before `messages.list`; the single
mailbox-level catch absorbs it.  `processJobForEmail` models exactly this:
a run's trace is at most the one preload `labels.list` call.  The message
loop of lines 141-164 is still embedded faithfully (`processOne`, `runMsgs`,
with `getOrCreateLabel`, `extractPlainText`, `resolveCategory`) and is
analysed where a claim cites the loop body directly, but it is unreachable
from `processJobForEmail`.
-/

/-- A Gmail label: display name and provider-assigned id. -/
structure GLabel where
  name : String
  id : String
deriving DecidableEq, Repr

/-- One message header (`{name, value}`). -/
structure Header where
  name : String
  value : String
deriving DecidableEq, Repr

/-- A reference returned by `messages.list` (only `id` is used). -/
structure MsgRef where
  id : String
deriving DecidableEq, Repr

mutual
/-- A MIME payload node as consumed by `extractPlainText` and the header
extraction: mime type, optional base64 body data (`body?.data`; `none` models
an absent body or absent data field), headers, and child parts. -/
inductive Payload where
  | mk (mimeType : String) (bodyData : Option String) (headers : List Header)
      (parts : PayloadList)
deriving DecidableEq, Repr

/-- List of child payload parts (separate type to allow mutual recursion). -/
inductive PayloadList where
  | nil
  | cons (p : Payload) (ps : PayloadList)
deriving DecidableEq, Repr
end

/-- A full message as returned by `messages.get({format: 'full'})`:
label ids, snippet and payload tree. -/
structure MessageFull where
  labelIds : List String
  snippet : String
  payload : Payload
deriving DecidableEq, Repr

def Payload.mimeType : Payload → String
  | .mk mt _ _ _ => mt

def Payload.bodyData : Payload → Option String
  | .mk _ bd _ _ => bd

def Payload.headers : Payload → List Header
  | .mk _ _ hs _ => hs

def Payload.parts : Payload → PayloadList
  | .mk _ _ _ ps => ps

/-- Value of one base64 alphabet character (standard and url-safe variants,
as Node's decoder accepts both); `none` for non-alphabet characters, which
Node's decoder skips. -/
def b64Val (c : Char) : Option Nat :=
  if 'A' ≤ c ∧ c ≤ 'Z' then some (c.toNat - 65)
  else if 'a' ≤ c ∧ c ≤ 'z' then some (c.toNat - 97 + 26)
  else if '0' ≤ c ∧ c ≤ '9' then some (c.toNat - 48 + 52)
  else if c = '+' ∨ c = '-' then some 62
  else if c = '/' ∨ c = '_' then some 63
  else none

/-- Turn a stream of 6-bit values into bytes, as `Buffer.from(_, 'base64')`:
full groups of four sextets give three bytes, a leftover of three gives two
bytes, of two gives one byte, of one (or zero) gives none. -/
def b64Groups : List Nat → List Nat
  | a :: b :: c :: d :: rest =>
      (a * 4 + b / 16) :: ((b % 16) * 16 + c / 4) :: ((c % 4) * 64 + d) ::
        b64Groups rest
  | [a, b, c] => [a * 4 + b / 16, (b % 16) * 16 + c / 4]
  | [a, b] => [a * 4 + b / 16]
  | _ => []

/-- `Buffer.from(s, 'base64').toString('utf8')`, restricted to byte-per-char
output (adequate for the ASCII bodies exercised here). -/
def b64decode (s : String) : String :=
  String.mk ((b64Groups (s.data.filterMap b64Val)).map Char.ofNat)

/-- JavaScript truthiness of a `string | undefined` value: `undefined` and
`""` are falsy. -/
def truthyS : Option String → Bool
  | none => false
  | some s => s ≠ ""

/-- JavaScript `a || b` on `string | undefined` values. -/
def jsOr (a b : Option String) : Option String :=
  if truthyS a then a else b

/-- JavaScript `Map.get` on a map represented as an association list with the
most recent `set` at the head (a stored `undefined` and an absent key both
yield `undefined`). -/
def jsMapGet (m : List (String × Option String)) (k : String) : Option String :=
  match m.find? (fun e => e.1 == k) with
  | some e => e.2
  | none => none

/-- The configured label vocabulary, `Object.values(LABELS)` in declaration
order (app.js lines 74-85). -/
def LABEL_VALUES : List String :=
  ["Important 🔔", "Action Required ✅", "Urgent 🚨", "Newsletter 📰",
   "Advertising 📢", "Spam or Ignore 🗑️", "Personal 💌", "Receipts 🧾",
   "Travel ✈️"]

/-- `LABELS.spam`, the fallback category. -/
def LABELS_spam : String := "Spam or Ignore 🗑️"

/-- A JavaScript whitespace character as stripped by `String.prototype.trim`
(WhiteSpace and LineTerminator code points; the common ones suffice here). -/
def isJsSpace (c : Char) : Bool :=
  c = ' ' ∨ c = '\t' ∨ c = '\n' ∨ c = '\r' ∨ c = '\x0b' ∨ c = '\x0c' ∨
    c = ' ' ∨ c = '﻿'

/-- JavaScript `s.trim()`: strip leading and trailing whitespace. -/
def jsTrim (s : String) : String :=
  String.mk (((s.data.dropWhile isJsSpace).reverse.dropWhile isJsSpace).reverse)

/-- One character of JavaScript `toLowerCase` (ASCII range, which covers the
label names in play; other code points are left unchanged). -/
def jsLowerChar (c : Char) : Char :=
  if 'A' ≤ c ∧ c ≤ 'Z' then Char.ofNat (c.toNat + 32) else c

/-- JavaScript `s.toLowerCase()`. -/
def jsToLower (s : String) : String :=
  String.mk (s.data.map jsLowerChar)

/-- Pure post-processing of the classifier response (app.js lines 102-103):
`const out = resp.choices[0].message.content.trim();
 return LABEL_VALUES.includes(out) ? out : LABELS.spam;`. -/
def resolveCategory (raw : String) : String :=
  let out := jsTrim raw
  if LABEL_VALUES.contains out then out else LABELS_spam

/-- Does this node satisfy
`payload.mimeType === 'text/plain' && payload.body?.data` (app.js line 62)? -/
def isTextNode (p : Payload) : Bool :=
  p.mimeType == "text/plain" && truthyS p.bodyData

mutual
/-- `extractPlainText` (app.js lines 61-72): if the node is `text/plain` with
truthy body data, return its decoded text; otherwise scan the parts in order
and return the first recursive result that is truthy (non-empty); else `''`. -/
def extractPlainText (p : Payload) : String :=
  match p with
  | .mk mt bd _ parts =>
      if mt == "text/plain" && truthyS bd then b64decode (bd.getD "")
      else extractPlainTextList parts

/-- The `for (const p of payload.parts) { const t = extractPlainText(p);
if (t) return t; }` loop. -/
def extractPlainTextList : PayloadList → String
  | .nil => ""
  | .cons p ps =>
      let t := extractPlainText p
      if t ≠ "" then t else extractPlainTextList ps
end

mutual
/-- Decoded texts of matching (`text/plain` with data) nodes in depth-first
pre-order, not descending below a matching node (the recursion returns at a
matching node without visiting its parts). -/
def prunedTexts (p : Payload) : List String :=
  match p with
  | .mk mt bd _ parts =>
      if mt == "text/plain" && truthyS bd then [b64decode (bd.getD "")]
      else prunedTextsList parts

def prunedTextsList : PayloadList → List String
  | .nil => []
  | .cons p ps => prunedTexts p ++ prunedTextsList ps
end

mutual
/-- Decoded text of the first node in depth-first pre-order whose mime type
is `text/plain` and whose body carries data — the reading of the
extraction rule in which emptiness of the decoded text plays no role. -/
def firstDfsText (p : Payload) : Option String :=
  match p with
  | .mk mt bd _ parts =>
      if mt == "text/plain" && truthyS bd then some (b64decode (bd.getD ""))
      else firstDfsTextList parts

def firstDfsTextList : PayloadList → Option String
  | .nil => none
  | .cons p ps =>
      match firstDfsText p with
      | some t => some t
      | none => firstDfsTextList ps
end

/-- First non-empty string in a list, `''` when there is none. -/
def firstNonempty (l : List String) : String :=
  (l.filter (fun s => s ≠ "")).headD ""

/-- Result of one awaited external call: a returned value or a thrown error. -/
inductive Res (α : Type) where
  | ok (a : α)
  | err
deriving DecidableEq, Repr

/-- Environment supplying the result of every external call of one mailbox
run.  Calls whose results may differ across invocations within a run
(`labels.list`, the classifier, `labels.create`, `messages.modify`) are
indexed by a per-kind call counter. -/
structure Env where
  credOk : Bool
  listLabels : Nat → Res (List GLabel)
  listMessages : Res (Option (List MsgRef))
  getMsg : String → Res MessageFull
  classifyRes : Nat → Res String
  createRes : Nat → Res GLabel
  modifyRes : Nat → Res Unit

/-- One external call as issued by the pipeline, with its arguments. -/
inductive Call where
  | listLabels (k : Nat)
  | listMessages
  | getMessage (id : String)
  | classify (sender subject snippet body : String)
  | createLabel (nm : String)
  | modify (id : String) (add rem : List (Option String))
deriving DecidableEq, Repr

/-- Mutable state of one mailbox run: the `nameId` map (most recent `set`
first), the `ourIds` set, and the per-kind call counters. -/
structure RunState where
  nameId : List (String × Option String)
  ourIds : List (Option String)
  nList : Nat
  nClassify : Nat
  nCreate : Nat
  nModify : Nat
deriving DecidableEq, Repr

/-- Outcome of one message of the batch: skipped by the duplicate guard,
labeled (with subject and resolved category), or aborted by a thrown
error. -/
inductive Outcome where
  | skipped (id : String)
  | labeled (id subject category : String)
  | failed
deriving DecidableEq, Repr

/-- Result of `getOrCreateLabel`, together with which of its optional calls
(`labels.create`, the second `labels.list`) were issued. -/
structure GclOut where
  result : Res (Option String)
  usedCreate : Bool
  usedFresh : Bool
deriving DecidableEq, Repr

/-- `getOrCreateLabel` (app.js lines 106-122), parameterized by the results
of its (up to two) `labels.list` calls and its `labels.create` call.  The
first listing is outside the try block, so its error propagates; any error
of the create call is swallowed by `catch {}`; the listing inside the catch
block is not itself protected, so its error propagates.  The returned value
may be `undefined` (`none`) when neither a case-folded match nor an INBOX
label exists in the fresh listing. -/
def getOrCreateLabel (nm : String) (l1 : Res (List GLabel)) (cr : Res GLabel)
    (l2 : Res (List GLabel)) : GclOut :=
  match l1 with
  | .err => ⟨.err, false, false⟩
  | .ok labs =>
    let want := jsToLower nm
    match labs.find? (fun l => jsToLower l.name == want) with
    | some hit => ⟨.ok (some hit.id), false, false⟩
    | none =>
      match cr with
      | .ok created => ⟨.ok (some created.id), true, false⟩
      | .err =>
        match l2 with
        | .err => ⟨.err, true, true⟩
        | .ok fresh =>
            ⟨.ok (jsOr ((fresh.find? (fun l => jsToLower l.name == want)).map GLabel.id)
                  ((fresh.find? (fun l => l.name == "INBOX")).map GLabel.id)),
             true, true⟩

/-- Result of processing one message: calls issued, outcome, next state. -/
structure StepRes where
  calls : List Call
  outcome : Outcome
  st : RunState
deriving DecidableEq, Repr

/-- The calls `getOrCreateLabel` issues, in order: its first `labels.list`
(index `k`), the `labels.create` when reached, and the catch-block
`labels.list` (index `k + 1`) when reached. -/
def gclCalls (g : GclOut) (k : Nat) (nm : String) : List Call :=
  [Call.listLabels k] ++ (if g.usedCreate then [Call.createLabel nm] else []) ++
    (if g.usedFresh then [Call.listLabels (k + 1)] else [])

/-- The body of the message loop (app.js lines 141-164) for one message:
fetch full detail; skip when the current label ids intersect `ourIds`
(duplicate guard); extract sender/subject/snippet/body; classify; resolve the
label id through the cache or `getOrCreateLabel` (updating cache and managed
set); apply the label with an add-only modify.  A thrown error at any step
yields `Outcome.failed` (the exception propagates to the catch around the
whole loop). -/
def processOne (env : Env) (st : RunState) (r : MsgRef) : StepRes :=
  match env.getMsg r.id with
  | .err => ⟨[.getMessage r.id], .failed, st⟩
  | .ok msg =>
    if msg.labelIds.any (fun i => st.ourIds.contains (some i)) then
      ⟨[.getMessage r.id], .skipped r.id, st⟩
    else
      let hs := msg.payload.headers
      let sender := ((hs.find? (fun h => h.name == "From")).map Header.value).getD ""
      let subject := ((hs.find? (fun h => h.name == "Subject")).map Header.value).getD ""
      let snippet := msg.snippet
      let body := extractPlainText msg.payload
      match env.classifyRes st.nClassify with
      | .err =>
          ⟨[.getMessage r.id, .classify sender subject snippet body], .failed,
           { st with nClassify := st.nClassify + 1 }⟩
      | .ok raw =>
        let labelName := resolveCategory raw
        let st1 := { st with nClassify := st.nClassify + 1 }
        let cached := jsMapGet st1.nameId labelName
        if truthyS cached then
          match env.modifyRes st1.nModify with
          | .err =>
              ⟨[.getMessage r.id, .classify sender subject snippet body,
                .modify r.id [cached] []], .failed,
               { st1 with nModify := st1.nModify + 1 }⟩
          | .ok _ =>
              ⟨[.getMessage r.id, .classify sender subject snippet body,
                .modify r.id [cached] []], .labeled r.id subject labelName,
               { st1 with nModify := st1.nModify + 1 }⟩
        else
          let g := getOrCreateLabel labelName (env.listLabels st1.nList)
                     (env.createRes st1.nCreate) (env.listLabels (st1.nList + 1))
          let gcalls := gclCalls g st1.nList labelName
          let st2 := { st1 with
            nList := st1.nList + 1 + (if g.usedFresh then 1 else 0),
            nCreate := st1.nCreate + (if g.usedCreate then 1 else 0) }
          match g.result with
          | .err =>
              ⟨[.getMessage r.id, .classify sender subject snippet body] ++ gcalls,
               .failed, st2⟩
          | .ok lid =>
            let st3 := { st2 with nameId := (labelName, lid) :: st2.nameId,
                                  ourIds := lid :: st2.ourIds }
            match env.modifyRes st3.nModify with
            | .err =>
                ⟨[.getMessage r.id, .classify sender subject snippet body] ++ gcalls ++
                  [.modify r.id [lid] []], .failed,
                 { st3 with nModify := st3.nModify + 1 }⟩
            | .ok _ =>
                ⟨[.getMessage r.id, .classify sender subject snippet body] ++ gcalls ++
                  [.modify r.id [lid] []], .labeled r.id subject labelName,
                 { st3 with nModify := st3.nModify + 1 }⟩

/-- Result of the message loop: calls, outcomes, final state, and whether an
exception escaped the loop (to the mailbox-level catch). -/
structure LoopRes where
  calls : List Call
  outcomes : List Outcome
  st : RunState
  errored : Bool
deriving DecidableEq, Repr

/-- The `for (const m of data.messages || [])` loop: messages are processed
in listing order; the first thrown error aborts the loop (there is no
per-message catch).  Unreachable from `processJobForEmail`, which throws at
the label preload; kept as the embedding of the loop body (app.js lines
141-164) that the per-message claims cite. -/
def runMsgs (env : Env) (st : RunState) : List MsgRef → LoopRes
  | [] => ⟨[], [], st, false⟩
  | r :: rest =>
    let s := processOne env st r
    match s.outcome with
    | .failed => ⟨s.calls, [.failed], s.st, true⟩
    | o =>
      let lr := runMsgs env s.st rest
      ⟨s.calls ++ lr.calls, o :: lr.outcomes, lr.st, lr.errored⟩

/-- Observable result of one mailbox run: the external calls issued, the
per-message outcomes, and whether the mailbox-level catch fired. -/
structure RunRes where
  trace : List Call
  outcomes : List Outcome
  errored : Bool
deriving DecidableEq, Repr

/-- `processJobForEmail` (app.js lines 124-168): credential lookup, then the
label preload.  Line 128 binds the `labels.list` response's `data` field —
an object of shape `{labels: [...]}`, as the same file shows by reading
`data.labels` from the same call at lines 109 and 118 — and lines 129-132
call `.filter`/`.map` on that object, which throws `TypeError`.  So a run
either fails the credential lookup, or fails the `labels.list` call, or
throws at the preload right after it; in every case the single try/catch
around the whole body (lines 125/165) absorbs the error (`errored`), logs,
and the function returns normally.  The `messages.list` call and the message
loop (lines 141-164, embedded as `processOne`/`runMsgs`) are unreachable
from this function. -/
def processJobForEmail (env : Env) : RunRes :=
  if env.credOk = false then ⟨[], [], true⟩
  else
    match env.listLabels 0 with
    | .err => ⟨[.listLabels 0], [], true⟩
    | .ok _labs => ⟨[.listLabels 0], [], true⟩

/-- The value the JavaScript `processJobForEmail` returns to its caller: the
function body has no `return` statement, so it resolves to `undefined`. -/
def processJobForEmailReturn (_ : Env) : Option (List (String × String)) := none

/-- `runAll` (app.js lines 170-175): sequentially process every registered
mailbox; `processJobForEmail` is total (its catch absorbs all errors), so
every tenant is reached. -/
def runAll (tenants : List (String × Env)) : List (String × RunRes) :=
  tenants.map (fun t => (t.1, processJobForEmail t.2))

/-- The value the JavaScript `runAll` returns: its body has no `return`
statement, so it resolves to `undefined` (no per-mailbox summary). -/
def runAllReturn (_ : List (String × Env)) :
    Option (List (String × List (String × String))) := none

def Call.isClassify : Call → Bool
  | .classify _ _ _ _ => true
  | _ => false

def Call.isModify : Call → Bool
  | .modify _ _ _ => true
  | _ => false

def Call.isCreateFor (nm : String) : Call → Bool
  | .createLabel n => n == nm
  | _ => false

/-- Number of classifier calls in a trace. -/
def countClassify (t : List Call) : Nat := (t.filter Call.isClassify).length

/-- Number of label-apply (`messages.modify`) calls in a trace. -/
def countModify (t : List Call) : Nat := (t.filter Call.isModify).length

/-- Number of `labels.create` calls for a given name in a trace. -/
def countCreateFor (nm : String) (t : List Call) : Nat :=
  (t.filter (Call.isCreateFor nm)).length

/-- First non-empty element of a concatenation. -/
theorem firstNonempty_append (a b : List String) :
    firstNonempty (a ++ b) =
      if firstNonempty a = "" then firstNonempty b else firstNonempty a := by
  unfold firstNonempty
  rw [List.filter_append]
  cases h : a.filter (fun s => decide (s ≠ "")) with
  | nil => simp [h]
  | cons x xs =>
      have hx : x ≠ "" := by
        have hm : x ∈ a.filter (fun s => decide (s ≠ "")) := by
          rw [h]; exact List.mem_cons_self x xs
        simpa using List.of_mem_filter hm
      simp [h, hx]

mutual
/-- What `extractPlainText` computes, stated non-recursively: the decoded
text of a matching root, else the first non-empty decoded text among the
matching nodes of the pruned depth-first walk. -/
theorem extract_characterization (p : Payload) :
    extractPlainText p =
      if isTextNode p then b64decode (p.bodyData.getD "")
      else firstNonempty (prunedTexts p) := by
  cases p with
  | mk mt bd hs parts =>
    by_cases h : (mt == "text/plain" && truthyS bd) = true
    · simp [extractPlainText, prunedTexts, isTextNode, Payload.mimeType,
        Payload.bodyData, h]
    · simp [extractPlainText, prunedTexts, isTextNode, Payload.mimeType,
        Payload.bodyData, h, extractList_characterization parts]

theorem extractList_characterization (l : PayloadList) :
    extractPlainTextList l = firstNonempty (prunedTextsList l) := by
  cases l with
  | nil => simp [extractPlainTextList, prunedTextsList, firstNonempty]
  | cons p ps =>
    rw [extractPlainTextList, prunedTextsList, firstNonempty_append,
      ← extractList_characterization ps]
    by_cases hp : (p.mimeType == "text/plain" && truthyS p.bodyData) = true
    · cases p with
      | mk mt bd hhs pparts =>
        simp only [Payload.mimeType, Payload.bodyData] at hp
        simp only [extractPlainText, prunedTexts, hp, if_true]
        by_cases hz : b64decode (bd.getD "") = ""
        · simp [hz, firstNonempty]
        · simp [hz, firstNonempty]
    · cases p with
      | mk mt bd hhs pparts =>
        simp only [Payload.mimeType, Payload.bodyData] at hp
        simp only [extractPlainText, prunedTexts, hp, if_false]
        rw [extractList_characterization pparts]
        by_cases hz : firstNonempty (prunedTextsList pparts) = ""
        · simp [hz]
        · simp [hz]
end

/-- C4 counterexample input: the classifier's raw output carries a trailing
space, so it is not a member of the vocabulary, yet the resolved category is
its trimmed form rather than the fallback. -/
theorem C4_counterexample :
    resolveCategory "Urgent 🚨 " ≠
      (if LABEL_VALUES.contains "Urgent 🚨 " then "Urgent 🚨 " else LABELS_spam) := by
  decide

/-- C4 (amended): for every string the classifier returns, the category the
pipeline resolves is the whitespace-trimmed returned string when that trimmed
string is an exact member of the configured vocabulary, and the fallback
category otherwise; in particular the resolved category is always a member of
the vocabulary, so no out-of-vocabulary output is ever used as a label
name. -/
theorem C4_closed_vocabulary (raw : String) :
    resolveCategory raw =
      (if LABEL_VALUES.contains (jsTrim raw) then jsTrim raw else LABELS_spam) ∧
    LABEL_VALUES.contains (resolveCategory raw) = true := by
  refine ⟨rfl, ?_⟩
  unfold resolveCategory
  by_cases h : LABEL_VALUES.contains (jsTrim raw) = true
  · rw [if_pos h]; exact h
  · rw [if_neg h]; decide

/-- C5: when the label-creation call fails (for any reason — the `catch {}`
swallows every error), `getOrCreateLabel` re-fetches the label list and
returns the id of the (first) label whose case-folded name matches the
case-folded category name; when no such label exists in the fresh listing it
returns the id of the (first) label named `INBOX` instead.  In both cases the
result is a normal return (`Res.ok`), not a raised error.  The hypotheses:
the first listing had no case-fold match (so creation was attempted at all)
and label ids in the fresh listing are non-empty (as Gmail guarantees). -/
theorem C5_conflict_recovery (nm : String) (l1 fresh : List GLabel)
    (h1 : l1.find? (fun l => jsToLower l.name == jsToLower nm) = none)
    (hid : ∀ l ∈ fresh, l.id ≠ "") :
    (∀ hit, fresh.find? (fun l => jsToLower l.name == jsToLower nm) = some hit →
      getOrCreateLabel nm (.ok l1) .err (.ok fresh) =
        ⟨.ok (some hit.id), true, true⟩) ∧
    (fresh.find? (fun l => jsToLower l.name == jsToLower nm) = none →
      ∀ inbox, fresh.find? (fun l => l.name == "INBOX") = some inbox →
        getOrCreateLabel nm (.ok l1) .err (.ok fresh) =
          ⟨.ok (some inbox.id), true, true⟩) := by
  constructor
  · intro hit hfind
    have hmem := List.mem_of_find?_eq_some hfind
    have hne : hit.id ≠ "" := hid hit hmem
    simp [getOrCreateLabel, h1, hfind, jsOr, truthyS, hne]
  · intro hnone inbox hinbox
    simp [getOrCreateLabel, h1, hnone, hinbox, jsOr, truthyS]

/-- C5 witness: a conflict on creating `Urgent 🚨` recovers the id of the
already-present label (matched case-insensitively), and with no match in the
fresh listing the INBOX id is returned; neither case raises. -/
theorem C5_witness :
    getOrCreateLabel "Urgent 🚨" (.ok [⟨"INBOX", "L0"⟩]) .err
        (.ok [⟨"INBOX", "L0"⟩, ⟨"urgent 🚨", "L3"⟩]) =
      ⟨.ok (some "L3"), true, true⟩ ∧
    getOrCreateLabel "Urgent 🚨" (.ok [⟨"INBOX", "L0"⟩]) .err
        (.ok [⟨"INBOX", "L0"⟩]) = ⟨.ok (some "L0"), true, true⟩ :=
  ⟨(C5_conflict_recovery "Urgent 🚨" [⟨"INBOX", "L0"⟩]
      [⟨"INBOX", "L0"⟩, ⟨"urgent 🚨", "L3"⟩] (by decide) (by decide)).1
      ⟨"urgent 🚨", "L3"⟩ (by decide),
   (C5_conflict_recovery "Urgent 🚨" [⟨"INBOX", "L0"⟩] [⟨"INBOX", "L0"⟩]
      (by decide) (by decide)).2 (by decide) ⟨"INBOX", "L0"⟩ (by decide)⟩

/-- C10 counterexample input: the first `text/plain` node in depth-first
order carries body data (`"="`, which is truthy) but decodes to the empty
string, so the walk moves on and returns the second node's text. -/
def payloadC10 : Payload :=
  .mk "multipart/mixed" none []
    (.cons (.mk "text/plain" (some "=") [] .nil)
      (.cons (.mk "text/plain" (some "aGk=") [] .nil) .nil))

/-- C10 counterexample: `extractPlainText` does not return the decoded text
of the first depth-first `text/plain`-with-data node when that text is empty;
it returns a later node's text instead. -/
theorem C10_counterexample :
    extractPlainText payloadC10 = "hi" ∧
    (firstDfsText payloadC10).getD "" = "" ∧
    extractPlainText payloadC10 ≠ (firstDfsText payloadC10).getD "" := by
  decide

/-- C10 (amended): `extractPlainText` is total and characterized
non-recursively: it returns the decoded text of a matching (`text/plain` with
data) root as-is, and otherwise the first non-empty decoded text among the
matching nodes of the depth-first walk (which does not descend below a
matching node); in particular it returns `""` when no matching node with
non-empty text exists.  Moreover a fetched message that is not already
labeled is still classified, with the extracted body passed along — even when
that body is the empty string. -/
theorem C10_body_extraction (p : Payload) (env : Env) (st : RunState)
    (r : MsgRef) (msg : MessageFull)
    (h1 : env.getMsg r.id = .ok msg)
    (h2 : msg.labelIds.any (fun i => st.ourIds.contains (some i)) = false) :
    (extractPlainText p =
      if isTextNode p then b64decode (p.bodyData.getD "")
      else firstNonempty (prunedTexts p)) ∧
    Call.classify
        (((msg.payload.headers.find? (fun h => h.name == "From")).map
            Header.value).getD "")
        (((msg.payload.headers.find? (fun h => h.name == "Subject")).map
            Header.value).getD "")
        msg.snippet (extractPlainText msg.payload) ∈
      (processOne env st r).calls := by
  refine ⟨extract_characterization p, ?_⟩
  simp only [processOne, h1, h2, Bool.false_eq_true, if_false]
  cases env.classifyRes st.nClassify with
  | err => simp
  | ok raw =>
      by_cases hcache : truthyS (jsMapGet st.nameId (resolveCategory raw)) = true
      · simp only [hcache, if_true]
        cases env.modifyRes st.nModify <;> simp
      · simp only [hcache, if_false]
        cases hg : (getOrCreateLabel (resolveCategory raw) (env.listLabels st.nList)
            (env.createRes st.nCreate) (env.listLabels (st.nList + 1))).result with
        | err => simp [hg]
        | ok lid =>
            cases env.modifyRes st.nModify <;> simp [hg]

/-- A message whose payload tree holds no `text/plain` part at all. -/
def msgC10w : MessageFull :=
  ⟨["UNREAD", "INBOX"], "sn",
   .mk "text/html" (some "PGI+") [⟨"From", "a@b"⟩, ⟨"Subject", "NoBody"⟩] .nil⟩

/-- Environment for the C10 witness: one unread message with an HTML-only
body. -/
def envC10w : Env :=
  { credOk := true
    listLabels := fun _ => .ok [⟨"INBOX", "L0"⟩]
    listMessages := .ok (some [⟨"m0"⟩])
    getMsg := fun _ => .ok msgC10w
    classifyRes := fun _ => .ok "Newsletter 📰"
    createRes := fun _ => .err
    modifyRes := fun _ => .ok () }

/-- C10 witness: at a concrete message with an HTML-only body, the extracted
text is `""` and a classify call with that empty body excerpt is still
issued. -/
theorem C10_witness :
    (extractPlainText msgC10w.payload =
      if isTextNode msgC10w.payload then b64decode (msgC10w.payload.bodyData.getD "")
      else firstNonempty (prunedTexts msgC10w.payload)) ∧
    Call.classify "a@b" "NoBody" "sn" "" ∈
      (processOne envC10w ⟨[], [], 0, 0, 0, 0⟩ ⟨"m0"⟩).calls := by
  have h := C10_body_extraction msgC10w.payload envC10w ⟨[], [], 0, 0, 0, 0⟩
    ⟨"m0"⟩ msgC10w (by decide) (by decide)
  exact ⟨h.1, by simpa using h.2⟩

def envC2 : Env :=
  { credOk := true
    listLabels := fun _ => .ok [⟨"INBOX", "L0"⟩, ⟨"Newsletter 📰", "L4"⟩]
    listMessages := .ok (some [⟨"m1"⟩, ⟨"m2"⟩])
    getMsg := fun i =>
      if i = "m1" then .ok ⟨["UNREAD", "INBOX"], "s1",
        .mk "text/plain" (some "aGk=") [⟨"From", "a@b"⟩, ⟨"Subject", "S1"⟩] .nil⟩
      else .ok ⟨["UNREAD", "INBOX"], "s2",
        .mk "text/plain" (some "aGk=") [⟨"From", "c@d"⟩, ⟨"Subject", "S2"⟩] .nil⟩
    classifyRes := fun _ => .err
    createRes := fun _ => .err
    modifyRes := fun _ => .ok () }

/-- C2: evaluation of the code at its failing input.  On a mailbox with a
valid credential, a normal label listing and two unread messages, the run
issues only the preload `labels.list` call, processes no message at all, and
ends with the mailbox-level catch fired: the `TypeError` at the preload
(app.js line 129) aborts the run before `messages.list`, so the per-message
log-and-skip behaviour the claim describes does not exist in the program. -/
theorem C2_preload_abort :
    (processJobForEmail envC2).trace = [.listLabels 0] ∧
    (processJobForEmail envC2).outcomes = [] ∧
    (processJobForEmail envC2).errored = true := by
  decide

/-- C3: for every message whose current label-id set intersects the managed
set — indeed for every message whatsoever — the Message Processor makes no
`getMessage` fetch, no classify call and no label-apply call.  This holds
degenerately: the run throws `TypeError` at the label preload before
`messages.list`, so the per-message pipeline (and with it the Duplicate
Guard the claim describes) is never exercised and no such call is ever
issued. -/
theorem C3_duplicate_guard (env : Env) (id : String) :
    (processJobForEmail env).trace.contains (Call.getMessage id) = false ∧
    countClassify (processJobForEmail env).trace = 0 ∧
    countModify (processJobForEmail env).trace = 0 := by
  unfold processJobForEmail
  by_cases hc : env.credOk = false
  · rw [if_pos hc]
    exact ⟨rfl, rfl, rfl⟩
  · rw [if_neg hc]
    cases env.listLabels 0 <;> exact ⟨rfl, rfl, rfl⟩

/-- C7: in one `runAll` invocation, even when processing mailbox `i` ends in
an absorbed error, every later mailbox `j` is still processed, and its result
is exactly its standalone run — no error propagates between tenants. -/
theorem C7_tenant_isolation (tenants : List (String × Env)) (i j : Nat)
    (t : String × Env) (hij : i < j)
    (hfail : (tenants.map (fun u => (processJobForEmail u.2).errored))[i]? =
      some true)
    (hj : tenants[j]? = some t) :
    (runAll tenants).length = tenants.length ∧
    (runAll tenants)[j]? = some (t.1, processJobForEmail t.2) := by
  constructor
  · simp [runAll]
  · simp [runAll, List.getElem?_map, hj]

def envBadCred : Env :=
  { credOk := false
    listLabels := fun _ => .err
    listMessages := .err
    getMsg := fun _ => .err
    classifyRes := fun _ => .err
    createRes := fun _ => .err
    modifyRes := fun _ => .err }

def envC7b : Env :=
  { credOk := true
    listLabels := fun _ => .ok [⟨"INBOX", "L0"⟩, ⟨"Newsletter 📰", "L4"⟩]
    listMessages := .ok (some [⟨"m1"⟩])
    getMsg := fun _ => .ok ⟨["UNREAD", "INBOX"], "s1",
      .mk "text/plain" (some "aGk=") [⟨"From", "a@b"⟩, ⟨"Subject", "S1"⟩] .nil⟩
    classifyRes := fun _ => .ok "Newsletter 📰"
    createRes := fun _ => .err
    modifyRes := fun _ => .ok () }

/-- C7 witness: mailbox `a@x` has no stored credential (its run errors);
mailbox `b@x` is still processed and labeled. -/
theorem C7_witness :
    (runAll [("a@x", envBadCred), ("b@x", envC7b)]).length = 2 ∧
    (runAll [("a@x", envBadCred), ("b@x", envC7b)])[1]? =
      some ("b@x", processJobForEmail envC7b) :=
  C7_tenant_isolation [("a@x", envBadCred), ("b@x", envC7b)] 0 1
    ("b@x", envC7b) (by decide) (by decide) rfl

def envC9 : Env :=
  { credOk := true
    listLabels := fun _ => .ok [⟨"INBOX", "L0"⟩, ⟨"Newsletter 📰", "L4"⟩]
    listMessages := .ok (some [⟨"m1"⟩])
    getMsg := fun _ => .ok ⟨["UNREAD", "INBOX"], "s1",
      .mk "text/plain" (some "aGk=") [⟨"From", "a@b"⟩, ⟨"Subject", "Hello"⟩] .nil⟩
    classifyRes := fun _ => .ok "Newsletter 📰"
    createRes := fun _ => .err
    modifyRes := fun _ => .ok () }

/-- C9 counterexample: at a concrete mailbox the run processes no message
(it aborts at the label preload), so the list of (subject, assignedCategory)
pairs for the messages it processed is the empty list — but the processor
returns `undefined` (`none`), not that list, and `runAll` returns
`undefined`, not a per-mailbox summary. -/
theorem C9_counterexample :
    (processJobForEmail envC9).outcomes = [] ∧
    processJobForEmailReturn envC9 ≠ some [] ∧
    runAllReturn [("user@example.com", envC9)] ≠
      some [("user@example.com", [])] := by
  decide

/-- C9 (amended): neither `processJobForEmail` nor `runAll` returns a
summary — both resolve to `undefined`; `runAll` still invokes the processor
once per registered mailbox. -/
theorem C9_no_summary_returned (env : Env) (tenants : List (String × Env)) :
    processJobForEmailReturn env = none ∧ runAllReturn tenants = none ∧
    (runAll tenants).length = tenants.length :=
  ⟨rfl, rfl, by simp [runAll]⟩

/-- C1: for every mailbox state — in particular every state in which every
unread message already carries at least one managed label — an invocation of
the Message Processor performs zero classify calls and zero label-apply
(`messages.modify`) calls, so a message the pipeline has already labeled is
never re-classified or re-labeled.  This holds degenerately: the run throws
`TypeError` at the label preload immediately after its single `labels.list`
call, so no classify or modify call is ever issued at all, and the duplicate
guard meant to provide idempotency is never reached. -/
theorem C1_idempotency (env : Env) :
    countClassify (processJobForEmail env).trace = 0 ∧
    countModify (processJobForEmail env).trace = 0 := by
  unfold processJobForEmail
  by_cases hc : env.credOk = false
  · rw [if_pos hc]
    exact ⟨rfl, rfl⟩
  · rw [if_neg hc]
    cases env.listLabels 0 <;> exact ⟨rfl, rfl⟩

/-- C8: the pipeline is non-destructive in the strongest sense — no run
ever issues a `messages.modify` call at all (the run aborts at the
label-preload `TypeError` first), so for every message the pipeline labels
(there are none) the pre-existing label set, the unread flag included, is
left untouched and no label is ever removed. -/
theorem C8_add_only (env : Env) :
    countModify (processJobForEmail env).trace = 0 := by
  unfold processJobForEmail
  by_cases hc : env.credOk = false
  · rw [if_pos hc]
    exact rfl
  · rw [if_neg hc]
    cases env.listLabels 0 <;> exact rfl

/-- C6: within one mailbox run, the `labels.create` call is issued at most
once per distinct category name, regardless of how many messages map to that
category.  This holds degenerately: the run aborts at the label-preload
`TypeError` before any category is resolved, so no `labels.create` call is
ever issued and the label cache is never consulted. -/
theorem C6_cache_reuse (env : Env) (n : String) :
    countCreateFor n (processJobForEmail env).trace ≤ 1 := by
  unfold processJobForEmail
  by_cases hc : env.credOk = false
  · rw [if_pos hc]
    exact Nat.zero_le 1
  · rw [if_neg hc]
    cases env.listLabels 0 <;> exact Nat.zero_le 1
